import Mathlib

/-!
Verification development for the avatar-chat backend (`index.js` of the
repository): a shallow embedding of the `/chat` and `/transcribe` request
handlers, their response cache, reply sanitization/normalization/validation,
and the per-message TTS / lip-sync fan-out, together with theorems about the
handlers' contracts.

External collaborators (the completion provider, the TTS provider, the two
subprocesses `ffmpeg` and `rhubarb`, and the platform `JSON.parse`) are
modelled as an oracle supplying their results; the filesystem contents that
the pipeline itself writes (`audios/message_<i>.mp3` etc.) are tracked
implicitly through the oracle's per-index TTS bytes.
-/

set_option autoImplicit false

namespace CredoRpm

/-- JavaScript values as produced by `JSON.parse` (no `undefined`; `undefined`
results of property access are modelled with `Option`). Numbers are modelled
as integers; no claim depends on fractional values. -/
inductive Json where
  | null
  | bool (b : Bool)
  | num (n : Int)
  | str (s : String)
  | arr (elems : List Json)
  | obj (fields : List (String × Json))

/-- JS truthiness of a value (`NaN` is not modelled). -/
def truthyJ : Json → Bool
  | .null => false
  | .bool b => b
  | .num n => n != 0
  | .str s => !s.isEmpty
  | .arr _ => true
  | .obj _ => true

/-- Truthiness of a property-access result, where `none` is `undefined`. -/
def jsTruthy (o : Option Json) : Bool :=
  match o with
  | some j => truthyJ j
  | none => false

/-- Lookup of a field in the field list of an object. -/
def lookupField : List (String × Json) → String → Option Json
  | [], _ => none
  | (k', x) :: rest, k => if k' = k then some x else lookupField rest k

/-- Non-throwing JS property access: returns the field of an object, and
`undefined` (`none`) on every other non-null value. Access on `null` throws in
JS; callers handle the `null` case separately before using this. -/
def jsGetOpt (v : Json) (k : String) : Option Json :=
  match v with
  | .obj fs => lookupField fs k
  | _ => none

/-- JS `a || d` where `a` is a property-access result: the value when truthy,
otherwise the default. -/
def jsOr (o : Option Json) (d : Json) : Json :=
  match o with
  | some j => if truthyJ j then j else d
  | none => d

mutual

/-- JS `String(v)` as used by the template literal `lipsync_${message.text}`. -/
def jsToString : Json → String
  | .null => "null"
  | .bool true => "true"
  | .bool false => "false"
  | .num n => toString n
  | .str s => s
  | .arr xs => String.intercalate "," (jsToStringElems xs)
  | .obj _ => "[object Object]"

/-- Elements of an array stringify like `Array.prototype.toString`:
`null` becomes the empty string, the rest recurse. -/
def jsToStringElems : List Json → List String
  | [] => []
  | x :: xs =>
      (match x with
       | .null => ""
       | y => jsToString y) :: jsToStringElems xs

end

/-! ## Base64 encoding (used by `audioFileToBase64`) -/

/-- The standard base64 alphabet. -/
def b64Alphabet : List Char :=
  "ABCDEFGHIJKLMNOPQRSTUVWXYZabcdefghijklmnopqrstuvwxyz0123456789+/".data

/-- The base64 digit for a 6-bit value. -/
def b64Char (n : Nat) : Char := b64Alphabet.getD n 'A'

/-- Base64 encoding of a byte list, three bytes at a time, with `=` padding. -/
def base64Chunks : List Nat → List Char
  | b1 :: b2 :: b3 :: rest =>
      b64Char (b1 / 4) :: b64Char (b1 % 4 * 16 + b2 / 16) ::
        b64Char (b2 % 16 * 4 + b3 / 64) :: b64Char (b3 % 64) :: base64Chunks rest
  | [b1, b2] => [b64Char (b1 / 4), b64Char (b1 % 4 * 16 + b2 / 16), b64Char (b2 % 16 * 4), '=']
  | [b1] => [b64Char (b1 / 4), b64Char (b1 % 4 * 16), '=', '=']
  | [] => []

/-- `audioFileToBase64`: the base64 string of a file's bytes. -/
def base64Encode (bs : List Nat) : String := String.mk (base64Chunks bs)

/-! ## Reply sanitization (`/chat`, lines 212-213 of the source) -/

/-- One global pass of `rawContent.replace(/\x60\x60\x60json\n?|\n?\x60\x60\x60/g, '')`:
at each position, the first alternative (three backticks, `json`, optional
greedy newline) is tried before the second (optional greedy newline, three
backticks). -/
def stripFences : List Char → List Char
  | '`' :: '`' :: '`' :: 'j' :: 's' :: 'o' :: 'n' :: '\n' :: rest => stripFences rest
  | '`' :: '`' :: '`' :: 'j' :: 's' :: 'o' :: 'n' :: rest => stripFences rest
  | '\n' :: '`' :: '`' :: '`' :: rest => stripFences rest
  | '`' :: '`' :: '`' :: rest => stripFences rest
  | c :: rest => c :: stripFences rest
  | [] => []

/-- ECMAScript whitespace/line terminators removed by `String.prototype.trim`. -/
def isJsSpace (c : Char) : Bool :=
  c = ' ' ∨ c = '\t' ∨ c = '\n' ∨ c = '\r' ∨ c = '\x0b' ∨ c = '\x0c' ∨
    c = ' ' ∨ c = ' ' ∨ (' ' ≤ c ∧ c ≤ ' ') ∨
    c = ' ' ∨ c = ' ' ∨ c = ' ' ∨ c = ' ' ∨
    c = '　' ∨ c = '﻿'

/-- `String.prototype.trim`. -/
def jsTrim (cs : List Char) : List Char :=
  ((cs.dropWhile isJsSpace).reverse.dropWhile isJsSpace).reverse

/-- `rawContent.replace(/[\x00-\x1F\x7F-\x9F]/g, '')`: drop C0 and C1 control
characters and DEL. -/
def stripControl (cs : List Char) : List Char :=
  cs.filter fun c => !(c.toNat ≤ 0x1f ∨ (0x7f ≤ c.toNat ∧ c.toNat ≤ 0x9f))

/-- The full sanitization of the raw completion content: strip code fences,
trim, then strip control characters (source lines 212-213). -/
def sanitizeReply (s : String) : String :=
  String.mk (stripControl (jsTrim (stripFences s.data)))

/-! ## Normalization and validation of the parsed reply -/

/-- Normalization of the parsed completion value (source lines 219-223),
runnning inside the same `try` as `JSON.parse`:
`if (messages.messages) messages = messages.messages; else if
(!Array.isArray(messages)) messages = [messages]`. A `null` value throws on
the property access; a truthy non-array `messages` property later throws on
`.map`. Both throws surface as the error fallback, so both are `.error`. -/
def normalizeParsed (v : Json) : Except Unit (List Json) :=
  match v with
  | .null => .error ()
  | _ =>
      match jsGetOpt v "messages" with
      | some m =>
          if truthyJ m then
            match m with
            | .arr xs => .ok xs
            | _ => .error ()
          else
            match v with
            | .arr xs => .ok xs
            | _ => .ok [v]
      | none =>
          match v with
          | .arr xs => .ok xs
          | _ => .ok [v]

/-- A message object handed back to the front-end. Field values other than
`audio` keep their JS type (`Json`); `lipsync` is `Option` because the
greeting path can leave it `undefined` (the `.catch(() => \x7b\x7d)` handler
returns `undefined`). -/
structure ChatMessage where
  text : Json
  facialExpression : Json
  animation : Json
  audio : String
  lipsync : Option Json

/-- The object literal built for one parsed entry by the defaulting map of
source lines 231-237: `text`, `facialExpression` and `animation` fall back to
fixed defaults when absent or falsy, `audio` starts empty and `lipsync`
starts as the empty object. -/
def defaulted (e : Json) : ChatMessage :=
  { text := jsOr (jsGetOpt e "text") (.str "Oops, something went wrong!")
    facialExpression := jsOr (jsGetOpt e "facialExpression") (.str "default")
    animation := jsOr (jsGetOpt e "animation") (.str "Idle")
    audio := ""
    lipsync := some (Json.obj []) }

/-- The defaulting map applied to one parsed entry. Property access on a
`null` entry throws (caught by the top-level catch); every other entry yields
the defaulted object. -/
def validateEntry (e : Json) : Except Unit ChatMessage :=
  match e with
  | .null => .error ()
  | _ => .ok (defaulted e)

/-- `messages.map(...)` over all parsed entries; the first throwing entry
aborts the whole request. -/
def validateAll : List Json → Except Unit (List ChatMessage)
  | [] => .ok []
  | e :: rest => do
      let m ← validateEntry e
      let ms ← validateAll rest
      .ok (m :: ms)

/-! ## Cache, oracle, startup environment -/

/-- A value stored in the `NodeCache`: either a whole message list (under a
`response_`-prefixed key) or one lip-sync timing value (under a
`lipsync_`-prefixed key). -/
inductive CacheVal where
  | msgs (l : List ChatMessage)
  | lips (j : Json)

/-- The in-memory cache, as a key-to-value map. Expiration is not modelled:
all theorems about cached reads assume the entry is unexpired, which is what
the claims state. -/
def Cache : Type := String → Option CacheVal

/-- `cache.set(key, value)`. -/
def Cache.set (c : Cache) (k : String) (v : CacheVal) : Cache :=
  fun k' => if k' = k then some v else c k'

/-- The empty cache (process start). -/
def emptyCache : Cache := fun _ => none

/-- JS truthiness of a cached value: a message list is an array, always
truthy; a lip-sync value is truthy per `truthyJ`. -/
def cacheValTruthy : CacheVal → Bool
  | .msgs _ => true
  | .lips j => truthyJ j

/-- `cache.get(key)` followed by the handler's `if (cachedResponse)` guard:
the entry only counts when present and truthy. -/
def respHit (c : Cache) (k : String) : Option CacheVal :=
  match c k with
  | some v => if cacheValTruthy v then some v else none
  | none => none

/-- `cache.get(lipSyncCacheKey)` followed by `if (cachedLipSync)`: a hit needs
a stored, truthy lip-sync value. -/
def lipHit (c : Cache) (k : String) : Option Json :=
  match c k with
  | some (.lips j) => if truthyJ j then some j else none
  | _ => none

/-- Results of the external collaborators during one request:
`completion` is the content string of the chat-completion reply (`none` for a
thrown network/HTTP error), `parse` is the platform `JSON.parse` (`none` for a
SyntaxError), `tts i` is the byte content written to `audios/message_<i>.mp3`
(`none` when the speech call fails), `ffmpegOk`/`rhubarbOk` tell whether the
two subprocess invocations for index `i` exit cleanly, and `rhubarbOut i` is
the timing JSON that a successful extraction writes (a failing re-read of that
file is folded into `rhubarbOk i = false`, which produces the same message). -/
structure Oracle where
  completion : Option String
  parse : String → Option Json
  tts : Nat → Option (List Nat)
  ffmpegOk : Nat → Bool
  rhubarbOk : Nat → Bool
  rhubarbOut : Nat → Json

/-- Startup filesystem contents read by the preload block and the greeting
path: the bytes of `audios/intro_0.wav` / `audios/api_0.wav` and the parsed
timing of `audios/intro_0.json` / `audios/api_0.json`; `none` models a failed
read (the `.catch` handlers yield `""` for audio and `undefined` for lipsync). -/
structure Env where
  introWav : Option (List Nat)
  introJson : Option Json
  apiWav : Option (List Nat)
  apiJson : Option Json

/-- The scripted greeting message for an empty user message (source lines
160-168). -/
def greetingMessage (env : Env) : ChatMessage :=
  { text := .str "Hey dear... How was your day?"
    audio := match env.introWav with
             | some bs => base64Encode bs
             | none => ""
    lipsync := env.introJson
    facialExpression := .str "smile"
    animation := .str "Talking_1" }

/-- The static `noApiKey` fallback list, with audio/lipsync preloaded from
`audios/api_0.*` at startup. -/
def noApiKeyMessages (env : Env) : List ChatMessage :=
  [{ text := .str "Please my dear, don't forget to add your Lemonfox API key!"
     audio := match env.apiWav with
              | some bs => base64Encode bs
              | none => ""
     lipsync := env.apiJson
     facialExpression := .str "angry"
     animation := .str "Angry" }]

/-- The static `error` fallback list, with audio/lipsync preloaded from
`audios/api_0.*` at startup. -/
def errorMessages (env : Env) : List ChatMessage :=
  [{ text := .str "Oops, something went wrong! Can you try again, dear?"
     audio := match env.apiWav with
              | some bs => base64Encode bs
              | none => ""
     lipsync := env.apiJson
     facialExpression := .str "sad"
     animation := .str "Crying" }]

/-! ## The /chat handler -/

/-- External-effect counters of one request: chat-completion calls, TTS
(speech) calls, subprocess invocations (ffmpeg and rhubarb), and audio files
written. -/
structure Effects where
  completionCalls : Nat
  speechCalls : Nat
  subprocCalls : Nat
  audioWrites : Nat

/-- No external effects. -/
def Effects.zero : Effects := ⟨0, 0, 0, 0⟩

/-- What one request ends in: a response with an HTTP status and a body
(`res.send`, status 200 unless set), or an unhandled throw before any
response was produced. -/
inductive ChatResult where
  | sent (status : Nat) (body : CacheVal)
  | crash

/-- `userMessage.replace(/[^a-zA-Z0-9]/g, '_')`: every character outside
ASCII `a-z`, `A-Z`, `0-9` becomes an underscore. (JS replaces per UTF-16 code
unit; this model replaces per Unicode scalar, which agrees on the Basic
Multilingual Plane.) -/
def sanChar (c : Char) : Char :=
  if ('a' ≤ c ∧ c ≤ 'z') ∨ ('A' ≤ c ∧ c ≤ 'Z') ∨ ('0' ≤ c ∧ c ≤ '9') then c else '_'

/-- The sanitized message used in the response cache key. -/
def sanitizeKey (s : String) : String := String.mk (s.data.map sanChar)

/-- The response cache key of a user message (source line 152). -/
def cacheKey (m : String) : String := "response_" ++ sanitizeKey m

/-- `Promise.all` of the TTS calls for indices `start, start+1, ...` (`n` of
them): all byte payloads in index order, or `none` when any call fails. -/
def ttsFrom (o : Oracle) (start : Nat) : Nat → Option (List (List Nat))
  | 0 => some []
  | n + 1 =>
      match o.tts start, ttsFrom o (start + 1) n with
      | some b, some rest => some (b :: rest)
      | _, _ => none

/-- Audio files actually written when the TTS fan-out runs: the successful
calls write their files even when a sibling fails the `Promise.all`. -/
def ttsWrites (o : Oracle) (n : Nat) : Nat :=
  ((List.range n).filter fun i => (o.tts i).isSome).length

/-- The per-message lip-sync step (source lines 266-285) for message `i` whose
mp3 file holds `bytes`: on a truthy cache hit for the exact reply text, attach
the cached timing and re-encode the audio (no subprocesses); otherwise run
ffmpeg then rhubarb, attach audio and fresh timing and record a cache write on
success, and degrade to empty timing (audio still attached) when either
subprocess fails. Returns the updated message, the number of subprocess
invocations, and the lip-sync cache write if any. -/
def processLip (o : Oracle) (c : Cache) (i : Nat) (msg : ChatMessage)
    (bytes : List Nat) : ChatMessage × Nat × Option (String × Json) :=
  match lipHit c ("lipsync_" ++ jsToString msg.text) with
  | some j => ({ msg with lipsync := some j, audio := base64Encode bytes }, 0, none)
  | none =>
      if o.ffmpegOk i then
        if o.rhubarbOk i then
          ({ msg with audio := base64Encode bytes, lipsync := some (o.rhubarbOut i) }, 2,
            some ("lipsync_" ++ jsToString msg.text, o.rhubarbOut i))
        else
          ({ msg with audio := base64Encode bytes, lipsync := some (Json.obj []) }, 2, none)
      else
        ({ msg with audio := base64Encode bytes, lipsync := some (Json.obj []) }, 1, none)

/-- The lip-sync fan-out over all messages, indexed from `start`; every
message reads the cache state from before the fan-out, as every
`cache.get` in the source runs before the first `await` of any branch. -/
def processAll (o : Oracle) (c : Cache) (start : Nat) :
    List ChatMessage → List (List Nat) → List (ChatMessage × Nat × Option (String × Json))
  | [], _ => []
  | _, [] => []
  | v :: vs, bs :: rest => processLip o c start v bs :: processAll o c (start + 1) vs rest

/-- The tail of the LLM path once validation produced `vs` (source lines
239-289): TTS fan-out (any failure falls to the top-level catch), lip-sync
fan-out, lip-sync cache writes, response-cache write, `res.send`. -/
def runPipeline (env : Env) (o : Oracle) (c : Cache) (key : String)
    (vs : List ChatMessage) : ChatResult × Cache × Effects :=
  match ttsFrom o 0 vs.length with
  | none =>
      (.sent 500 (.msgs (errorMessages env)), c,
        ⟨1, vs.length, 0, ttsWrites o vs.length⟩)
  | some allBytes =>
      let results := processAll o c 0 vs allBytes
      let outMsgs := results.map Prod.fst
      let subproc := (results.map fun r => r.2.1).sum
      let c1 := (results.filterMap fun r => r.2.2).foldl
        (fun acc kv => acc.set kv.1 (.lips kv.2)) c
      (.sent 200 (.msgs outMsgs), (c1.set key (.msgs outMsgs)),
        ⟨1, vs.length, subproc, vs.length⟩)

/-- The outcome of a failure anywhere between the completion call and the
first TTS call (thrown network error, `JSON.parse` SyntaxError, a throwing
normalization or defaulting step): the inner catch of lines 224-228 and the
top-level catch of lines 290-293 both answer the static error fallback with
status 500; one completion call was made and nothing was written. -/
def errResult (env : Env) (c : Cache) : ChatResult × Cache × Effects :=
  (.sent 500 (.msgs (errorMessages env)), c, ⟨1, 0, 0, 0⟩)

/-- LLM path, stage 4 (source lines 231-237): the defaulting map over the
normalized entries; a throwing entry (JSON `null`) falls to the top-level
catch, otherwise the TTS / lip-sync pipeline runs. -/
def chatValidated (env : Env) (o : Oracle) (c : Cache) (key : String)
    (es : List Json) : ChatResult × Cache × Effects :=
  match validateAll es with
  | .error _ => errResult env c
  | .ok vs => runPipeline env o c key vs

/-- LLM path, stage 3 (source lines 219-223): normalization of the parsed
reply value; a throwing normalization is caught and answered like a parse
failure. -/
def chatNormalized (env : Env) (o : Oracle) (c : Cache) (key : String)
    (v : Json) : ChatResult × Cache × Effects :=
  match normalizeParsed v with
  | .error _ => errResult env c
  | .ok es => chatValidated env o c key es

/-- LLM path, stage 2 (source lines 208-228): sanitize the raw reply content
and `JSON.parse` it; a SyntaxError is caught and answered with the error
fallback and status 500. -/
def chatParsed (env : Env) (o : Oracle) (c : Cache) (key : String)
    (raw : String) : ChatResult × Cache × Effects :=
  match o.parse (sanitizeReply raw) with
  | none => errResult env c
  | some v => chatNormalized env o c key v

/-- The LLM path of `/chat` (source lines 177-293), stage 1: the completion
call; a thrown call is caught at top level. -/
def chatLLM (env : Env) (o : Oracle) (c : Cache) (key : String) :
    ChatResult × Cache × Effects :=
  match o.completion with
  | none => errResult env c
  | some raw => chatParsed env o c key raw

/-- `/chat` after a response-cache miss (source lines 159-175): the scripted
greeting for an empty message (cached under its key), the static `noApiKey`
fallback when the credential is the literal `"-"`, else the LLM path. -/
def chatMiss (env : Env) (cred : String) (o : Oracle) (c : Cache) (m : String)
    (key : String) : ChatResult × Cache × Effects :=
  if m = "" then
    (.sent 200 (.msgs [greetingMessage env]),
      c.set key (.msgs [greetingMessage env]), Effects.zero)
  else if cred = "-" then
    (.sent 200 (.msgs (noApiKeyMessages env)), c, Effects.zero)
  else
    chatLLM env o c key

/-- `/chat` for a present string message: compute the cache key, serve a
truthy cached value unchanged, otherwise continue (source lines 152-157). -/
def chatWithMessage (env : Env) (cred : String) (o : Oracle) (c : Cache)
    (m : String) : ChatResult × Cache × Effects :=
  match respHit c (cacheKey m) with
  | some v => (.sent 200 v, c, Effects.zero)
  | none => chatMiss env cred o c m (cacheKey m)

/-- The `/chat` handler. `body` is the `message` field of the request body;
when it is absent, line 152 calls `.replace` on `undefined` and the handler
throws before sending any response (`.crash`). -/
def chat (env : Env) (cred : String) (c : Cache) (o : Oracle)
    (body : Option String) : ChatResult × Cache × Effects :=
  match body with
  | none => (.crash, c, Effects.zero)
  | some m => chatWithMessage env cred o c m

/-! ## The /transcribe handler -/

/-- The `/transcribe` handler (source lines 119-146): result is
(status, transcript-or-none, upstream network calls). `audioBase64` absent or
empty, or the `"-"` credential, is rejected with 400 before any call;
otherwise one upstream call is made and a provider failure maps to 500.
`stt` is the provider's transcript (`none` for a thrown/non-2xx call). -/
def transcribe (cred : String) (audioBase64 : Option String)
    (stt : Option String) : Nat × Option String × Nat :=
  match audioBase64 with
  | none => (400, none, 0)
  | some a =>
      if a = "" ∨ cred = "-" then (400, none, 0)
      else
        match stt with
        | some t => (200, some t, 1)
        | none => (500, none, 1)

/-! ## Basic lemmas about keys and the cache -/

theorem string_length_eq_zero_iff (s : String) : s.length = 0 ↔ s = "" := by
  cases s with
  | mk l =>
    constructor
    · intro h
      have hl : l = [] := List.length_eq_zero.mp h
      subst hl; rfl
    · intro h
      have hl : l = [] := by
        have hd := congrArg String.data h
        simpa using hd
      subst hl; rfl

theorem sanitizeKey_length (m : String) : (sanitizeKey m).length = m.length := by
  cases m with
  | mk l => simp [sanitizeKey, String.length]

theorem cacheKey_length (m : String) : (cacheKey m).length = 9 + m.length := by
  rw [cacheKey, String.length_append, sanitizeKey_length]
  rfl

theorem cacheKey_empty_iff {m1 m2 : String} (h : cacheKey m1 = cacheKey m2) :
    (m1 = "" ↔ m2 = "") := by
  have hlen := congrArg String.length h
  rw [cacheKey_length, cacheKey_length] at hlen
  have hl : m1.length = m2.length := by omega
  rw [← string_length_eq_zero_iff, ← string_length_eq_zero_iff, hl]

theorem cacheKey_ne_base {m : String} (h : m ≠ "") : cacheKey m ≠ "response_" := by
  intro he
  have hlen := congrArg String.length he
  rw [cacheKey_length] at hlen
  have : m.length = 0 := by
    have : ("response_" : String).length = 9 := rfl
    omega
  exact h ((string_length_eq_zero_iff m).mp this)

theorem cache_set_self (c : Cache) (k : String) (v : CacheVal) :
    (c.set k v) k = some v := by
  simp [Cache.set]

theorem respHit_set_msgs (c : Cache) (k : String) (l : List ChatMessage) :
    respHit (c.set k (.msgs l)) k = some (.msgs l) := by
  simp [respHit, cache_set_self, cacheValTruthy]

/-! ## Unfolding equations of the handler stages -/

theorem chat_some (env : Env) (cred : String) (c : Cache) (o : Oracle)
    (m : String) : chat env cred c o (some m) = chatWithMessage env cred o c m := rfl

theorem chatWithMessage_hit {c : Cache} {m : String} {v : CacheVal}
    (env : Env) (cred : String) (o : Oracle) (h : respHit c (cacheKey m) = some v) :
    chatWithMessage env cred o c m = (.sent 200 v, c, Effects.zero) := by
  unfold chatWithMessage; rw [h]

theorem chatWithMessage_miss {c : Cache} {m : String}
    (env : Env) (cred : String) (o : Oracle) (h : respHit c (cacheKey m) = none) :
    chatWithMessage env cred o c m = chatMiss env cred o c m (cacheKey m) := by
  unfold chatWithMessage; rw [h]

theorem chatMiss_empty (env : Env) (cred : String) (o : Oracle) (c : Cache)
    (key : String) :
    chatMiss env cred o c "" key =
      (.sent 200 (.msgs [greetingMessage env]),
        c.set key (.msgs [greetingMessage env]), Effects.zero) := rfl

theorem chatMiss_noKey {m : String} (env : Env) (o : Oracle) (c : Cache)
    (key : String) (hm : m ≠ "") :
    chatMiss env "-" o c m key =
      (.sent 200 (.msgs (noApiKeyMessages env)), c, Effects.zero) := by
  unfold chatMiss; rw [if_neg hm, if_pos rfl]

theorem chatMiss_llm {cred m : String} (env : Env) (o : Oracle) (c : Cache)
    (key : String) (hm : m ≠ "") (hcred : cred ≠ "-") :
    chatMiss env cred o c m key = chatLLM env o c key := by
  unfold chatMiss; rw [if_neg hm, if_neg hcred]

theorem chatLLM_noCompletion {o : Oracle} (env : Env) (c : Cache)
    (key : String) (h : o.completion = none) :
    chatLLM env o c key = errResult env c := by
  unfold chatLLM; rw [h]

theorem chatLLM_completion {o : Oracle} {raw : String} (env : Env) (c : Cache)
    (key : String) (h : o.completion = some raw) :
    chatLLM env o c key = chatParsed env o c key raw := by
  unfold chatLLM; rw [h]

theorem chatParsed_fail {o : Oracle} {raw : String} (env : Env) (c : Cache)
    (key : String) (h : o.parse (sanitizeReply raw) = none) :
    chatParsed env o c key raw = errResult env c := by
  unfold chatParsed; rw [h]

theorem chatParsed_ok {o : Oracle} {raw : String} {v : Json} (env : Env)
    (c : Cache) (key : String) (h : o.parse (sanitizeReply raw) = some v) :
    chatParsed env o c key raw = chatNormalized env o c key v := by
  unfold chatParsed; rw [h]

theorem chatNormalized_fail {v : Json} {e : Unit} (env : Env) (o : Oracle) (c : Cache)
    (key : String) (h : normalizeParsed v = .error e) :
    chatNormalized env o c key v = errResult env c := by
  unfold chatNormalized; rw [h]

theorem chatNormalized_ok {v : Json} {es : List Json} (env : Env) (o : Oracle)
    (c : Cache) (key : String) (h : normalizeParsed v = .ok es) :
    chatNormalized env o c key v = chatValidated env o c key es := by
  unfold chatNormalized; rw [h]

theorem chatValidated_fail {es : List Json} {e : Unit} (env : Env) (o : Oracle)
    (c : Cache) (key : String) (h : validateAll es = .error e) :
    chatValidated env o c key es = errResult env c := by
  unfold chatValidated; rw [h]

theorem chatValidated_ok {es : List Json} {vs : List ChatMessage} (env : Env)
    (o : Oracle) (c : Cache) (key : String) (h : validateAll es = .ok vs) :
    chatValidated env o c key es = runPipeline env o c key vs := by
  unfold chatValidated; rw [h]

theorem runPipeline_ttsFail {o : Oracle} {vs : List ChatMessage} (env : Env)
    (c : Cache) (key : String) (h : ttsFrom o 0 vs.length = none) :
    runPipeline env o c key vs =
      (.sent 500 (.msgs (errorMessages env)), c,
        ⟨1, vs.length, 0, ttsWrites o vs.length⟩) := by
  unfold runPipeline; rw [h]

theorem runPipeline_ttsOk {o : Oracle} {vs : List ChatMessage}
    {allBytes : List (List Nat)} (env : Env) (c : Cache) (key : String)
    (h : ttsFrom o 0 vs.length = some allBytes) :
    runPipeline env o c key vs =
      (.sent 200 (.msgs ((processAll o c 0 vs allBytes).map Prod.fst)),
        (((processAll o c 0 vs allBytes).filterMap fun r => r.2.2).foldl
            (fun acc kv => acc.set kv.1 (.lips kv.2)) c).set key
          (.msgs ((processAll o c 0 vs allBytes).map Prod.fst)),
        ⟨1, vs.length, ((processAll o c 0 vs allBytes).map fun r => r.2.1).sum,
          vs.length⟩) := by
  unfold runPipeline; rw [h]

/-! ## The second-request property of the response cache -/

/-- Every `/chat` run that answers with status 200 leaves the cache so that
the same key either holds the very body it sent, or (only in `"-"` mode for a
non-empty uncached message) stays missing while the body is the static
`noApiKey` list and the cache is unchanged. -/
theorem chat_200_inv {env : Env} {cred : String} {c : Cache} {o : Oracle}
    {m : String} {b : CacheVal} {c1 : Cache} {e1 : Effects}
    (h : chat env cred c o (some m) = (.sent 200 b, c1, e1)) :
    respHit c1 (cacheKey m) = some b ∨
      (respHit c1 (cacheKey m) = none ∧ m ≠ "" ∧ cred = "-" ∧
        b = .msgs (noApiKeyMessages env) ∧ c1 = c) := by
  rw [chat_some] at h
  cases hr : respHit c (cacheKey m) with
  | some v =>
      rw [chatWithMessage_hit env cred o hr] at h
      simp only [Prod.mk.injEq, ChatResult.sent.injEq] at h
      obtain ⟨⟨-, hvb⟩, hc1, -⟩ := h
      subst hvb; subst hc1
      exact Or.inl hr
  | none =>
      rw [chatWithMessage_miss env cred o hr] at h
      by_cases hm : m = ""
      · subst hm
        rw [chatMiss_empty] at h
        simp only [Prod.mk.injEq, ChatResult.sent.injEq] at h
        obtain ⟨⟨-, hvb⟩, hc1, -⟩ := h
        subst hvb; subst hc1
        exact Or.inl (respHit_set_msgs c (cacheKey "") [greetingMessage env])
      · by_cases hcred : cred = "-"
        · subst hcred
          rw [chatMiss_noKey env o c (cacheKey m) hm] at h
          simp only [Prod.mk.injEq, ChatResult.sent.injEq] at h
          obtain ⟨⟨-, hvb⟩, hc1, -⟩ := h
          subst hvb; subst hc1
          exact Or.inr ⟨hr, hm, rfl, rfl, rfl⟩
        · rw [chatMiss_llm env o c (cacheKey m) hm hcred] at h
          cases hcomp : o.completion with
          | none =>
              rw [chatLLM_noCompletion env c (cacheKey m) hcomp] at h
              simp [errResult, Prod.mk.injEq] at h
          | some raw =>
              rw [chatLLM_completion env c (cacheKey m) hcomp] at h
              cases hparse : o.parse (sanitizeReply raw) with
              | none =>
                  rw [chatParsed_fail env c (cacheKey m) hparse] at h
                  simp [errResult, Prod.mk.injEq] at h
              | some v =>
                  rw [chatParsed_ok env c (cacheKey m) hparse] at h
                  cases hnorm : normalizeParsed v with
                  | error e =>
                      rw [chatNormalized_fail env o c (cacheKey m) hnorm] at h
                      simp [errResult, Prod.mk.injEq] at h
                  | ok es =>
                      rw [chatNormalized_ok env o c (cacheKey m) hnorm] at h
                      cases hval : validateAll es with
                      | error e =>
                          rw [chatValidated_fail env o c (cacheKey m) hval] at h
                          simp [errResult, Prod.mk.injEq] at h
                      | ok vs =>
                          rw [chatValidated_ok env o c (cacheKey m) hval] at h
                          cases htts : ttsFrom o 0 vs.length with
                          | none =>
                              rw [runPipeline_ttsFail env c (cacheKey m) htts] at h
                              simp [Prod.mk.injEq] at h
                          | some allBytes =>
                              rw [runPipeline_ttsOk env c (cacheKey m) htts] at h
                              simp only [Prod.mk.injEq, ChatResult.sent.injEq] at h
                              obtain ⟨⟨-, hvb⟩, hc1, -⟩ := h
                              subst hvb
                              rw [← hc1]
                              exact Or.inl (respHit_set_msgs _ (cacheKey m) _)

/-- A second `/chat` request whose message has the same cache key, arriving
after a first run that answered 200, is served the first run's body from the
cache (or, in `"-"` mode, the same static fallback), with zero external
effects and no cache change. -/
theorem chat_second_run {env : Env} {cred : String} {c : Cache} {o o' : Oracle}
    {m1 m2 : String} {b : CacheVal} {c1 : Cache} {e1 : Effects}
    (hkey : cacheKey m1 = cacheKey m2)
    (h : chat env cred c o (some m1) = (.sent 200 b, c1, e1)) :
    chat env cred c1 o' (some m2) = (.sent 200 b, c1, Effects.zero) := by
  have hemp : m1 = "" ↔ m2 = "" := cacheKey_empty_iff hkey
  rcases chat_200_inv h with hhit | ⟨hmiss, hm1, hcred, hb, hc⟩
  · rw [hkey] at hhit
    rw [chat_some, chatWithMessage_hit env cred o' hhit]
  · have hm2 : ¬m2 = "" := fun h2 => hm1 (hemp.mpr h2)
    rw [hkey] at hmiss
    subst hcred
    rw [chat_some, chatWithMessage_miss env "-" o' hmiss,
      chatMiss_noKey env o' c1 (cacheKey m2) hm2, hb]

/-! ## Lemmas about the TTS and lip-sync fan-outs -/

theorem base64Encode_ne_empty {bs : List Nat} (h : bs ≠ []) :
    base64Encode bs ≠ "" := by
  intro he
  have hd : base64Chunks bs = [] := congrArg String.data he
  rcases bs with _ | ⟨b1, _ | ⟨b2, _ | ⟨b3, rest⟩⟩⟩
  · exact h rfl
  · simp [base64Chunks] at hd
  · simp [base64Chunks] at hd
  · simp [base64Chunks] at hd

theorem ttsFrom_length {o : Oracle} :
    ∀ (n start : Nat) (bs : List (List Nat)),
      ttsFrom o start n = some bs → bs.length = n := by
  intro n
  induction n with
  | zero =>
      intro start bs h
      simp [ttsFrom] at h
      subst h
      rfl
  | succ k ih =>
      intro start bs h
      unfold ttsFrom at h
      cases hts : o.tts start with
      | none => rw [hts] at h; simp at h
      | some b =>
          rw [hts] at h
          cases hrest : ttsFrom o (start + 1) k with
          | none => rw [hrest] at h; simp at h
          | some rest =>
              rw [hrest] at h
              simp only [Option.some.injEq] at h
              subst h
              simp [ih (start + 1) rest hrest]

theorem ttsFrom_getElem {o : Oracle} :
    ∀ (n start i : Nat) (bs : List (List Nat)),
      ttsFrom o start n = some bs → i < n → bs[i]? = o.tts (start + i) := by
  intro n
  induction n with
  | zero => intro start i bs _ hi; omega
  | succ k ih =>
      intro start i bs h hi
      unfold ttsFrom at h
      cases hts : o.tts start with
      | none => rw [hts] at h; simp at h
      | some b =>
          rw [hts] at h
          cases hrest : ttsFrom o (start + 1) k with
          | none => rw [hrest] at h; simp at h
          | some rest =>
              rw [hrest] at h
              simp only [Option.some.injEq] at h
              subst h
              cases i with
              | zero => simp [hts]
              | succ j =>
                  have hj : j < k := by omega
                  have := ih (start + 1) j rest hrest hj
                  simpa [Nat.add_assoc, Nat.add_comm 1 j] using this

theorem processAll_getElem {o : Oracle} {c : Cache} :
    ∀ (vs : List ChatMessage) (bs : List (List Nat)) (start i : Nat)
      (vi : ChatMessage) (bi : List Nat),
      vs[i]? = some vi → bs[i]? = some bi →
      (processAll o c start vs bs)[i]? = some (processLip o c (start + i) vi bi) := by
  intro vs
  induction vs with
  | nil => intro bs start i vi bi hv _; simp at hv
  | cons v vtl ih =>
      intro bs start i vi bi hv hb
      cases bs with
      | nil => simp at hb
      | cons b btl =>
          cases i with
          | zero =>
              simp only [List.getElem?_cons_zero, Option.some.injEq] at hv hb
              subst hv; subst hb
              simp [processAll]
          | succ j =>
              simp only [List.getElem?_cons_succ] at hv hb
              have := ih btl (start + 1) j vi bi hv hb
              simp only [processAll, List.getElem?_cons_succ]
              rw [this]
              congr 2
              omega

/-- Reduction of the per-message step on a (truthy) lip-sync cache hit:
cached timing attached, audio re-encoded from the per-index file, no
subprocess invocation, no lip-sync cache write. -/
theorem processLip_hit {o : Oracle} {c : Cache} {i : Nat} {msg : ChatMessage}
    {bytes : List Nat} {L : Json}
    (hlip : lipHit c ("lipsync_" ++ jsToString msg.text) = some L) :
    processLip o c i msg bytes =
      ({ msg with lipsync := some L, audio := base64Encode bytes }, 0, none) := by
  unfold processLip; rw [hlip]

/-- Reduction of the per-message step when there is no cache hit and the
conversion or the extraction subprocess fails: audio attached, timing
degraded to the empty object, no cache write. -/
theorem processLip_degraded {o : Oracle} {c : Cache} {i : Nat}
    {msg : ChatMessage} {bytes : List Nat}
    (hlip : lipHit c ("lipsync_" ++ jsToString msg.text) = none)
    (hfail : o.ffmpegOk i = false ∨ o.rhubarbOk i = false) :
    processLip o c i msg bytes =
      ({ msg with audio := base64Encode bytes, lipsync := some (Json.obj []) },
        (if o.ffmpegOk i then 2 else 1), none) := by
  unfold processLip
  rw [hlip]
  cases hff : o.ffmpegOk i with
  | false => simp
  | true =>
      have hrb : o.rhubarbOk i = false := by
        rcases hfail with hf | hrb
        · rw [hff] at hf; cases hf
        · exact hrb
      simp [hrb]

/-- The whole LLM path on its success prefix: with an uncached non-empty
message, a usable credential, a successful completion whose sanitized content
parses, normalizes and validates, and all TTS calls succeeding, the handler
answers 200 with the lip-sync fan-out results assembled by index, writes the
list back to the response cache, and counts one completion call and one
speech call plus one audio write per message. -/
theorem chat_llm_success {env : Env} {cred : String} {c : Cache} {o : Oracle}
    {m raw : String} {v : Json} {es : List Json} {vs : List ChatMessage}
    {allBytes : List (List Nat)}
    (hcred : cred ≠ "-") (hm : m ≠ "") (hmiss : respHit c (cacheKey m) = none)
    (hcomp : o.completion = some raw)
    (hparse : o.parse (sanitizeReply raw) = some v)
    (hnorm : normalizeParsed v = .ok es) (hval : validateAll es = .ok vs)
    (htts : ttsFrom o 0 vs.length = some allBytes) :
    chat env cred c o (some m) =
      (.sent 200 (.msgs ((processAll o c 0 vs allBytes).map Prod.fst)),
        (((processAll o c 0 vs allBytes).filterMap fun r => r.2.2).foldl
            (fun acc kv => acc.set kv.1 (.lips kv.2)) c).set (cacheKey m)
          (.msgs ((processAll o c 0 vs allBytes).map Prod.fst)),
        ⟨1, vs.length, ((processAll o c 0 vs allBytes).map fun r => r.2.1).sum,
          vs.length⟩) := by
  rw [chat_some, chatWithMessage_miss env cred o hmiss,
    chatMiss_llm env o c (cacheKey m) hm hcred,
    chatLLM_completion env c (cacheKey m) hcomp,
    chatParsed_ok env c (cacheKey m) hparse,
    chatNormalized_ok env o c (cacheKey m) hnorm,
    chatValidated_ok env o c (cacheKey m) hval,
    runPipeline_ttsOk env c (cacheKey m) htts]

/-! ## Lemmas about validation of null-free entry lists -/

theorem validateEntry_ok {e : Json} (he : e ≠ Json.null) :
    validateEntry e = .ok (defaulted e) := by
  cases e with
  | null => exact absurd rfl he
  | bool b => rfl
  | num n => rfl
  | str s => rfl
  | arr xs => rfl
  | obj fs => rfl

theorem validateAll_eq_map {es : List Json} (h : ∀ e ∈ es, e ≠ Json.null) :
    validateAll es = .ok (es.map defaulted) := by
  induction es with
  | nil => rfl
  | cons e rest ih =>
      have he : e ≠ Json.null := h e (List.mem_cons_self e rest)
      have hrest := ih fun x hx => h x (List.mem_cons_of_mem e hx)
      simp only [validateAll, validateEntry_ok he, hrest]
      rfl

theorem jsOr_of_not_truthy {op : Option Json} {d : Json}
    (h : jsTruthy op = false) : jsOr op d = d := by
  cases op with
  | none => rfl
  | some j =>
      have hj : truthyJ j = false := h
      simp [jsOr, hj]

theorem jsOr_of_truthy {op : Option Json} {d j : Json} (h : op = some j)
    (ht : truthyJ j = true) : jsOr op d = j := by
  subst h
  simp [jsOr, ht]

/-! ## The credential-less mode invariant -/

/-- In `"-"` mode the only key the handler ever writes is the greeting key
`response_` (the empty message's key): every other key stays absent. -/
def onlyGreetingKey (c : Cache) : Prop :=
  ∀ k, k ≠ "response_" → c k = none

theorem onlyGreetingKey_empty : onlyGreetingKey emptyCache := fun _ _ => rfl

theorem cacheKey_empty_string : cacheKey "" = "response_" := rfl

theorem dash_preserves_onlyGreetingKey (env : Env) (c : Cache) (o : Oracle)
    (body : Option String) (h : onlyGreetingKey c) :
    onlyGreetingKey (chat env "-" c o body).2.1 := by
  cases body with
  | none => exact h
  | some m =>
      rw [chat_some]
      cases hr : respHit c (cacheKey m) with
      | some v => rw [chatWithMessage_hit env "-" o hr]; exact h
      | none =>
          rw [chatWithMessage_miss env "-" o hr]
          by_cases hm : m = ""
          · subst hm
            rw [chatMiss_empty]
            intro k hk
            have hne : k ≠ cacheKey "" := by
              rw [cacheKey_empty_string]; exact hk
            show (if k = cacheKey "" then some (CacheVal.msgs [greetingMessage env])
              else c k) = none
            rw [if_neg hne]
            exact h k hk
          · rw [chatMiss_noKey env o c (cacheKey m) hm]
            exact h

/-! ## Concrete fixtures used by witnesses and counterexamples -/

/-- A startup environment in which none of the pre-baked audio/timing files
could be read (all fallback audio is `""`, all fallback lipsync `undefined`). -/
def env0 : Env := ⟨none, none, none, none⟩

/-- An oracle in which every external collaborator fails. -/
def o0 : Oracle :=
  { completion := none
    parse := fun _ => none
    tts := fun _ => none
    ffmpegOk := fun _ => false
    rhubarbOk := fun _ => false
    rhubarbOut := fun _ => Json.null }

/-- An oracle whose completion call succeeds but whose reply content does not
parse as JSON after sanitization. -/
def oParseFail : Oracle :=
  { completion := some "oops not json"
    parse := fun _ => none
    tts := fun _ => none
    ffmpegOk := fun _ => false
    rhubarbOk := fun _ => false
    rhubarbOut := fun _ => Json.null }

/-! ## Claim theorems -/

/-- Claim C1 (code bug): the spec says an empty or absent `message` always
yields the scripted greeting with the `smile` expression, but for an absent
`message` the handler evaluates `userMessage.replace` on `undefined` at line
152, before the `!userMessage` greeting check at line 159 ever runs, and the
request dies on an unhandled TypeError without any response, for every
credential configuration and cache state. This theorem evaluates the handler
at that failing input. (The empty-string half of the claim does hold; see the
greeting equation `chatMiss_empty`.) -/
theorem chat_absent_message_crashes (env : Env) (cred : String) (c : Cache)
    (o : Oracle) : chat env cred c o none = (.crash, c, Effects.zero) := rfl

/-- Claim C2: with the `"-"` credential, a `/chat` request with a non-empty
message is answered with the static `noApiKey` fallback list and zero
external effects (no completion call, no speech call), for every cache state
reachable in `"-"` mode (characterized by `onlyGreetingKey`, which the empty
cache satisfies and every `"-"`-mode request preserves, see
`dash_preserves_onlyGreetingKey`). -/
theorem chat_dash_mode_no_network (env : Env) (c : Cache) (o : Oracle)
    (m : String) (hc : onlyGreetingKey c) (hm : m ≠ "") :
    chat env "-" c o (some m) =
      (.sent 200 (.msgs (noApiKeyMessages env)), c, Effects.zero) := by
  have hmiss : respHit c (cacheKey m) = none := by
    have hk := cacheKey_ne_base hm
    simp [respHit, hc (cacheKey m) hk]
  rw [chat_some, chatWithMessage_miss env "-" o hmiss,
    chatMiss_noKey env o c (cacheKey m) hm]

theorem chat_dash_mode_no_network_witness :
    chat env0 "-" emptyCache o0 (some "hi") =
      (.sent 200 (.msgs (noApiKeyMessages env0)), emptyCache, Effects.zero) :=
  chat_dash_mode_no_network env0 emptyCache o0 "hi" onlyGreetingKey_empty
    (by decide)

/-- Claim C3: if a `/chat` request for a message completes successfully
(status 200, body `b`, cache afterwards `c1`), then a second request for the
same message against `c1` — before expiry, which the model's cache never
does — returns the identical body with zero external effects (no completion
call, no speech call, no subprocess, no file write), whatever the external
world `o2` would have answered. -/
theorem chat_cache_second_request (env : Env) (cred : String) (c : Cache)
    (o o2 : Oracle) (m : String) (b : CacheVal) (c1 : Cache) (e1 : Effects)
    (h : chat env cred c o (some m) = (.sent 200 b, c1, e1)) :
    chat env cred c1 o2 (some m) = (.sent 200 b, c1, Effects.zero) :=
  chat_second_run rfl h

theorem chat_cache_second_request_witness :
    chat env0 "-" emptyCache o0 (some "hello") =
      (.sent 200 (.msgs (noApiKeyMessages env0)), emptyCache, Effects.zero) :=
  chat_cache_second_request env0 "-" emptyCache o0 o0 "hello"
    (.msgs (noApiKeyMessages env0)) emptyCache Effects.zero rfl

/-- Claim C4: when the completion call succeeds but its content, after
stripping code fences and control characters (`sanitizeReply`), does not
parse as JSON, `/chat` answers the static error fallback with status 500,
and the request's effects are one completion call and zero speech calls,
zero subprocesses and zero audio-file writes. -/
theorem chat_parse_failure_fallback (env : Env) (cred : String) (c : Cache)
    (o : Oracle) (m raw : String) (hcred : cred ≠ "-") (hm : m ≠ "")
    (hmiss : respHit c (cacheKey m) = none) (hcomp : o.completion = some raw)
    (hparse : o.parse (sanitizeReply raw) = none) :
    chat env cred c o (some m) =
      (.sent 500 (.msgs (errorMessages env)), c, ⟨1, 0, 0, 0⟩) := by
  rw [chat_some, chatWithMessage_miss env cred o hmiss,
    chatMiss_llm env o c (cacheKey m) hm hcred,
    chatLLM_completion env c (cacheKey m) hcomp,
    chatParsed_fail env c (cacheKey m) hparse]
  rfl

theorem chat_parse_failure_fallback_witness :
    chat env0 "k" emptyCache oParseFail (some "hello") =
      (.sent 500 (.msgs (errorMessages env0)), emptyCache, ⟨1, 0, 0, 0⟩) :=
  chat_parse_failure_fallback env0 "k" emptyCache oParseFail "hello"
    "oops not json" (by decide) (by decide) rfl rfl rfl

/-- Claim C8: a `/transcribe` request without `audioBase64`, or with the
no-credential value `"-"`, is rejected with status 400 and zero upstream
calls, whatever the provider would have answered. -/
theorem transcribe_missing_audio_rejected (cred : String)
    (audio : Option String) (stt : Option String)
    (h : audio = none ∨ cred = "-") :
    transcribe cred audio stt = (400, none, 0) := by
  rcases h with h | h
  · subst h; rfl
  · cases audio with
    | none => rfl
    | some a =>
        subst h
        simp [transcribe]

theorem transcribe_missing_audio_rejected_witness :
    transcribe "-" (some "abc") (some "text") = (400, none, 0) :=
  transcribe_missing_audio_rejected "-" (some "abc") (some "text") (Or.inr rfl)

/-- Claim C9: two distinct non-empty messages can agree after the
alphanumeric collapse (`"hi!"` and `"hi?"` do); every such pair shares the
response cache key, and after a first request for one completes with status
200, a request for the other is answered with that very body and zero
external effects. -/
theorem chat_cache_key_collision :
    (∃ m1 m2 : String, m1 ≠ m2 ∧ m1 ≠ "" ∧ m2 ≠ "" ∧
      sanitizeKey m1 = sanitizeKey m2) ∧
    (∀ m1 m2 : String, sanitizeKey m1 = sanitizeKey m2 →
      cacheKey m1 = cacheKey m2) ∧
    (∀ (env : Env) (cred : String) (c : Cache) (o o2 : Oracle)
      (m1 m2 : String) (b : CacheVal) (c1 : Cache) (e1 : Effects),
      sanitizeKey m1 = sanitizeKey m2 →
      chat env cred c o (some m1) = (.sent 200 b, c1, e1) →
      chat env cred c1 o2 (some m2) = (.sent 200 b, c1, Effects.zero)) := by
  refine ⟨⟨"hi!", "hi?", by decide, by decide, by decide, by decide⟩, ?_, ?_⟩
  · intro m1 m2 h
    unfold cacheKey
    rw [h]
  · intro env cred c o o2 m1 m2 b c1 e1 hs h
    refine chat_second_run ?_ h
    unfold cacheKey
    rw [hs]

theorem chat_cache_key_collision_witness :
    chat env0 "-" emptyCache o0 (some "hi?") =
      (.sent 200 (.msgs (noApiKeyMessages env0)), emptyCache, Effects.zero) :=
  chat_cache_key_collision.2.2 env0 "-" emptyCache o0 o0 "hi!" "hi?"
    (.msgs (noApiKeyMessages env0)) emptyCache Effects.zero (by decide) rfl

/-- Claim C10: with the `"-"` credential and a non-empty uncached message,
`/chat` answers the `noApiKey` fallback through the plain `res.send` of line
174, so the HTTP status is the success status 200 — not the 500 used by the
parse-failure and top-level-catch paths. -/
theorem chat_dash_mode_success_status (env : Env) (c : Cache) (o : Oracle)
    (m : String) (hm : m ≠ "") (hmiss : respHit c (cacheKey m) = none) :
    chat env "-" c o (some m) =
      (.sent 200 (.msgs (noApiKeyMessages env)), c, Effects.zero) := by
  rw [chat_some, chatWithMessage_miss env "-" o hmiss,
    chatMiss_noKey env o c (cacheKey m) hm]

theorem chat_dash_mode_success_status_witness :
    chat env0 "-" emptyCache o0 (some "yo") =
      (.sent 200 (.msgs (noApiKeyMessages env0)), emptyCache, Effects.zero) :=
  chat_dash_mode_success_status env0 emptyCache o0 "yo" (by decide) rfl

/-- An oracle whose completion reply parses to the array `[null]`: the parse
succeeds, but the defaulting map's property access throws on the `null`
entry. -/
def oNull : Oracle :=
  { completion := some "[null]"
    parse := fun _ => some (Json.arr [Json.null])
    tts := fun _ => none
    ffmpegOk := fun _ => false
    rhubarbOk := fun _ => false
    rhubarbOut := fun _ => Json.null }

/-- Counterexample to claim C5 as stated: a completion reply can parse and
normalize to the entry list `[null]` — so a parsed completion entry exists —
yet no corresponding defaulted ChatMessage is ever returned: `msg.text` on
the `null` entry throws, the top-level catch answers the static error
fallback with status 500, and that fallback's text is not the default text
the claim promises for the entry. -/
theorem chat_null_entry_counterexample :
    normalizeParsed (Json.arr [Json.null]) = .ok [Json.null] ∧
    validateEntry Json.null = .error () ∧
    chat env0 "k" emptyCache oNull (some "go") =
      (.sent 500 (.msgs (errorMessages env0)), emptyCache, ⟨1, 0, 0, 0⟩) :=
  ⟨rfl, rfl, rfl⟩

/-- Claim C5 (amended): provided no parsed completion entry is JSON `null`
(property access on a `null` entry instead aborts the whole request to the
error fallback, see the counterexample), the defaulting map succeeds on every
entry and the resulting ChatMessage has all five fields: `audio` initialized
empty, `lipsync` initialized to the empty object, and `text`,
`facialExpression`, `animation` equal to the entry's own truthy values or to
the fixed defaults "Oops, something went wrong!", "default" and "Idle" when
the respective property is missing or falsy. -/
theorem chat_entry_defaults (es : List Json) (h : ∀ e ∈ es, e ≠ Json.null) :
    validateAll es = .ok (es.map defaulted) ∧
    (es.map defaulted).length = es.length ∧
    ∀ (i : Nat) (e : Json), es[i]? = some e →
      (es.map defaulted)[i]? = some (defaulted e) ∧
      (defaulted e).audio = "" ∧
      (defaulted e).lipsync = some (Json.obj []) ∧
      (jsTruthy (jsGetOpt e "text") = false →
        (defaulted e).text = .str "Oops, something went wrong!") ∧
      (jsTruthy (jsGetOpt e "facialExpression") = false →
        (defaulted e).facialExpression = .str "default") ∧
      (jsTruthy (jsGetOpt e "animation") = false →
        (defaulted e).animation = .str "Idle") ∧
      (∀ t, jsGetOpt e "text" = some t → truthyJ t = true →
        (defaulted e).text = t) ∧
      (∀ t, jsGetOpt e "facialExpression" = some t → truthyJ t = true →
        (defaulted e).facialExpression = t) ∧
      (∀ t, jsGetOpt e "animation" = some t → truthyJ t = true →
        (defaulted e).animation = t) := by
  refine ⟨validateAll_eq_map h, by simp, ?_⟩
  intro i e he
  refine ⟨?_, rfl, rfl, ?_, ?_, ?_, ?_, ?_, ?_⟩
  · rw [List.getElem?_map, he]
    rfl
  · exact fun ht => jsOr_of_not_truthy ht
  · exact fun ht => jsOr_of_not_truthy ht
  · exact fun ht => jsOr_of_not_truthy ht
  · exact fun t hteq htt => jsOr_of_truthy hteq htt
  · exact fun t hteq htt => jsOr_of_truthy hteq htt
  · exact fun t hteq htt => jsOr_of_truthy hteq htt

theorem chat_entry_defaults_witness :
    validateAll [Json.obj []] = .ok ([Json.obj []].map defaulted) ∧
    ([Json.obj []].map defaulted).length = [Json.obj []].length ∧
    ∀ (i : Nat) (e : Json), [Json.obj []][i]? = some e →
      ([Json.obj []].map defaulted)[i]? = some (defaulted e) ∧
      (defaulted e).audio = "" ∧
      (defaulted e).lipsync = some (Json.obj []) ∧
      (jsTruthy (jsGetOpt e "text") = false →
        (defaulted e).text = .str "Oops, something went wrong!") ∧
      (jsTruthy (jsGetOpt e "facialExpression") = false →
        (defaulted e).facialExpression = .str "default") ∧
      (jsTruthy (jsGetOpt e "animation") = false →
        (defaulted e).animation = .str "Idle") ∧
      (∀ t, jsGetOpt e "text" = some t → truthyJ t = true →
        (defaulted e).text = t) ∧
      (∀ t, jsGetOpt e "facialExpression" = some t → truthyJ t = true →
        (defaulted e).facialExpression = t) ∧
      (∀ t, jsGetOpt e "animation" = some t → truthyJ t = true →
        (defaulted e).animation = t) :=
  chat_entry_defaults [Json.obj []]
    (fun e hmem => by
      rw [List.mem_singleton] at hmem
      subst hmem
      exact fun hx => Json.noConfusion hx)

/-- An oracle for one successful reply entry with text `"Hi"`, a successful
TTS call writing the bytes `[1, 2, 3]`, and a failing conversion subprocess. -/
def o6 : Oracle :=
  { completion := some "x"
    parse := fun _ => some (Json.arr [Json.obj [("text", Json.str "Hi")]])
    tts := fun _ => some [1, 2, 3]
    ffmpegOk := fun _ => false
    rhubarbOk := fun _ => false
    rhubarbOut := fun _ => Json.null }

/-- Claim C6: on the successful LLM path, if message `i`'s speech synthesis
succeeded (its non-empty bytes were written and are read back fine) but its
conversion or extraction subprocess fails and its text has no lip-sync cache
entry, the 200 response still contains message `i` with non-empty base64
audio and the empty timing object, and every other message `j` is exactly the
result of its own independent per-message step — siblings and the request as
a whole are unaffected. -/
theorem chat_lipsync_failure_isolated (env : Env) (cred : String) (c : Cache)
    (o : Oracle) (m raw : String) (v : Json) (es : List Json)
    (vs : List ChatMessage) (allBytes : List (List Nat)) (i : Nat)
    (vi : ChatMessage) (bi : List Nat)
    (hcred : cred ≠ "-") (hm : m ≠ "") (hmiss : respHit c (cacheKey m) = none)
    (hcomp : o.completion = some raw)
    (hparse : o.parse (sanitizeReply raw) = some v)
    (hnorm : normalizeParsed v = .ok es) (hval : validateAll es = .ok vs)
    (htts : ttsFrom o 0 vs.length = some allBytes)
    (hvi : vs[i]? = some vi) (hbi : allBytes[i]? = some bi) (hbne : bi ≠ [])
    (hlip : lipHit c ("lipsync_" ++ jsToString vi.text) = none)
    (hfail : o.ffmpegOk i = false ∨ o.rhubarbOk i = false) :
    ∃ (out : List ChatMessage) (c1 : Cache) (e1 : Effects),
      chat env cred c o (some m) = (.sent 200 (.msgs out), c1, e1) ∧
      out[i]? = some { vi with
        audio := base64Encode bi
        lipsync := some (Json.obj []) } ∧
      base64Encode bi ≠ "" ∧
      ∀ (j : Nat) (vj : ChatMessage) (bj : List Nat), j ≠ i →
        vs[j]? = some vj → allBytes[j]? = some bj →
        out[j]? = some (processLip o c j vj bj).1 := by
  refine ⟨(processAll o c 0 vs allBytes).map Prod.fst, _, _,
    chat_llm_success hcred hm hmiss hcomp hparse hnorm hval htts, ?_,
    base64Encode_ne_empty hbne, ?_⟩
  · have hpa := @processAll_getElem o c vs allBytes 0 i vi bi hvi hbi
    rw [Nat.zero_add] at hpa
    rw [List.getElem?_map, hpa, processLip_degraded hlip hfail]
    rfl
  · intro j vj bj hji hvj hbj
    have hpa := @processAll_getElem o c vs allBytes 0 j vj bj hvj hbj
    rw [Nat.zero_add] at hpa
    rw [List.getElem?_map, hpa]
    rfl

theorem chat_lipsync_failure_isolated_witness :
    ∃ (out : List ChatMessage) (c1 : Cache) (e1 : Effects),
      chat env0 "k" emptyCache o6 (some "m") =
        (.sent 200 (.msgs out), c1, e1) ∧
      out[0]? = some { defaulted (Json.obj [("text", Json.str "Hi")]) with
        audio := base64Encode [1, 2, 3]
        lipsync := some (Json.obj []) } ∧
      base64Encode [1, 2, 3] ≠ "" ∧
      ∀ (j : Nat) (vj : ChatMessage) (bj : List Nat), j ≠ 0 →
        [defaulted (Json.obj [("text", Json.str "Hi")])][j]? = some vj →
        [[1, 2, 3]][j]? = some bj →
        out[j]? = some (processLip o6 emptyCache j vj bj).1 :=
  chat_lipsync_failure_isolated env0 "k" emptyCache o6 "m" "x"
    (Json.arr [Json.obj [("text", Json.str "Hi")]])
    [Json.obj [("text", Json.str "Hi")]]
    [defaulted (Json.obj [("text", Json.str "Hi")])] [[1, 2, 3]] 0
    (defaulted (Json.obj [("text", Json.str "Hi")])) [1, 2, 3]
    (by decide) (by decide) rfl rfl rfl rfl rfl rfl rfl rfl
    (by decide) rfl (Or.inl rfl)

/-- A cache holding a (truthy) lip-sync entry for the exact reply text
`"Hi"`. -/
def c7 : Cache :=
  emptyCache.set "lipsync_Hi" (.lips (Json.obj [("mouthCues", Json.arr [])]))

/-- Claim C7: on the successful LLM path, a reply message whose exact text
has a (truthy, unexpired) lip-sync cache entry gets that cached timing
attached without any conversion or extraction subprocess for that message
(its per-message subprocess count is 0), while its audio is still the base64
re-encoding of the bytes freshly written to its per-index file. -/
theorem chat_lipsync_cache_reuse (env : Env) (cred : String) (c : Cache)
    (o : Oracle) (m raw : String) (v : Json) (es : List Json)
    (vs : List ChatMessage) (allBytes : List (List Nat)) (i : Nat)
    (vi : ChatMessage) (bi : List Nat) (L : Json)
    (hcred : cred ≠ "-") (hm : m ≠ "") (hmiss : respHit c (cacheKey m) = none)
    (hcomp : o.completion = some raw)
    (hparse : o.parse (sanitizeReply raw) = some v)
    (hnorm : normalizeParsed v = .ok es) (hval : validateAll es = .ok vs)
    (htts : ttsFrom o 0 vs.length = some allBytes)
    (hvi : vs[i]? = some vi) (hbi : allBytes[i]? = some bi)
    (hlip : lipHit c ("lipsync_" ++ jsToString vi.text) = some L) :
    ∃ (out : List ChatMessage) (c1 : Cache) (e1 : Effects),
      chat env cred c o (some m) = (.sent 200 (.msgs out), c1, e1) ∧
      out[i]? = some { vi with
        lipsync := some L
        audio := base64Encode bi } ∧
      (processLip o c i vi bi).2.1 = 0 := by
  refine ⟨(processAll o c 0 vs allBytes).map Prod.fst, _, _,
    chat_llm_success hcred hm hmiss hcomp hparse hnorm hval htts, ?_, ?_⟩
  · have hpa := @processAll_getElem o c vs allBytes 0 i vi bi hvi hbi
    rw [Nat.zero_add] at hpa
    rw [List.getElem?_map, hpa, processLip_hit hlip]
    rfl
  · rw [processLip_hit hlip]

theorem chat_lipsync_cache_reuse_witness :
    ∃ (out : List ChatMessage) (c1 : Cache) (e1 : Effects),
      chat env0 "k" c7 o6 (some "m") = (.sent 200 (.msgs out), c1, e1) ∧
      out[0]? = some { defaulted (Json.obj [("text", Json.str "Hi")]) with
        lipsync := some (Json.obj [("mouthCues", Json.arr [])])
        audio := base64Encode [1, 2, 3] } ∧
      (processLip o6 c7 0 (defaulted (Json.obj [("text", Json.str "Hi")]))
        [1, 2, 3]).2.1 = 0 :=
  chat_lipsync_cache_reuse env0 "k" c7 o6 "m" "x"
    (Json.arr [Json.obj [("text", Json.str "Hi")]])
    [Json.obj [("text", Json.str "Hi")]]
    [defaulted (Json.obj [("text", Json.str "Hi")])] [[1, 2, 3]] 0
    (defaulted (Json.obj [("text", Json.str "Hi")])) [1, 2, 3]
    (Json.obj [("mouthCues", Json.arr [])])
    (by decide) (by decide) rfl rfl rfl rfl rfl rfl rfl rfl rfl

end CredoRpm
